import Mathlib

/-!
Verification development for the KMZ/KML processing web application
(src/app.py).  The Dash callback process_files is embedded as a pure
function over an explicit workspace state; the five helpers imported from
the processor module (absent from the sources) are modelled from the
specification, each marked with a doc comment beginning
"Modelled from the spec:".  Numeric parsing of coordinate fields
(Python float) is abstracted as a total parameter so that field
selection, ordering and counting can be stated without floating-point
semantics.
-/

/-! ## Python string primitives, embedded charwise -/

/-- Whitespace recognised by Python str.split and str.strip (ASCII
fragment; the uploads of interest are ASCII filenames and coordinate
text). -/
def pyIsSpace (c : Char) : Bool :=
  c == ' ' || c == '\t' || c == '\n' || c == '\r' || c == '\x0b' || c == '\x0c'

/-- Splitting a character list at every separator character, keeping
empty pieces (structural recursion so it reduces in the kernel). -/
def splitCharsAux (p : Char → Bool) : List Char → List Char → List String
  | [], acc => [String.mk acc.reverse]
  | c :: cs, acc =>
    if p c then String.mk acc.reverse :: splitCharsAux p cs []
    else splitCharsAux p cs (c :: acc)

/-- Splitting a string at every character satisfying the predicate,
keeping empty pieces; the empty string yields one empty piece. -/
def pySplit (p : Char → Bool) (s : String) : List String :=
  splitCharsAux p s.toList []

/-- Python s.split() with no argument: split on whitespace runs,
dropping empty pieces. -/
def pySplitWs (s : String) : List String :=
  (pySplit pyIsSpace s).filter (· ≠ "")

/-- Python s.split(sep) for a one-character separator: empty pieces are
kept, and the empty string yields one empty piece. -/
def pySplitComma (s : String) : List String :=
  pySplit (fun c => c == ',') s

/-- Python s.strip(): drop leading and trailing whitespace. -/
def pyStrip (s : String) : String :=
  String.mk (((s.toList.dropWhile pyIsSpace).reverse.dropWhile pyIsSpace).reverse)

/-- Python s.replace(" ", "_"): single-character replacement is a
charwise map. -/
def pyUnderscore (s : String) : String :=
  String.mk (s.toList.map (fun c => if c == ' ' then '_' else c))

/-- ASCII lowering of one character, as Python str.lower acts on the
ASCII range. -/
def lowerChar (c : Char) : Char :=
  if 'A' ≤ c ∧ c ≤ 'Z' then Char.ofNat (c.toNat + 32) else c

/-- Python s.lower() on the ASCII fragment. -/
def pyLower (s : String) : String :=
  String.mk (s.toList.map lowerChar)

/-- Python s.rfind(c): index of the last occurrence of the character, or
-1 when absent. -/
def pyRFind (cs : List Char) (c : Char) : Int :=
  match ((List.range cs.length).filter (fun i => cs.getD i c == c)).getLast? with
  | some i => (i : Int)
  | none => -1

/-- The extension part of os.path.splitext (posixpath): the suffix from
the last dot, provided that dot lies after the last path separator and
some character strictly between them is not a dot (leading dots of the
base name never start an extension). -/
def splitextExt (p : String) : String :=
  let cs := p.toList
  let sepIndex := pyRFind cs '/'
  let dotIndex := pyRFind cs '.'
  if sepIndex < dotIndex then
    if (List.range cs.length).any
        (fun j => decide (sepIndex < (j : Int)) && decide ((j : Int) < dotIndex)
          && !(cs.getD j '.' == '.')) then
      String.mk (cs.drop dotIndex.toNat)
    else ""
  else ""

/-- Python os.path.basename: the part after the last slash. -/
def pyBasename (s : String) : String :=
  let cs := s.toList
  String.mk (cs.drop (pyRFind cs '/' + 1).toNat)

/-! ## The UUID regular expression of app.py line 128

re.search with the fixed-width pattern of five hyphen-separated hex
groups (8-4-4-4-12) returns the match at the least starting index. -/

/-- A hexadecimal digit as matched by the character class 0-9a-fA-F. -/
def isHexChar (c : Char) : Bool :=
  (decide ('0' ≤ c) && decide (c ≤ '9')) ||
  (decide ('a' ≤ c) && decide (c ≤ 'f')) ||
  (decide ('A' ≤ c) && decide (c ≤ 'F'))

/-- Offsets of the hyphens inside the 36-character UUID pattern. -/
def uuidDashPos (i : Nat) : Bool :=
  i == 8 || i == 13 || i == 18 || i == 23

/-- Whether a character list is exactly one match of the UUID pattern:
36 characters, hyphens at offsets 8, 13, 18, 23 and hex digits
elsewhere. -/
def uuidShape (cs : List Char) : Bool :=
  cs.length == 36 &&
    (List.range 36).all
      (fun i => if uuidDashPos i then cs.getD i ' ' == '-' else isHexChar (cs.getD i ' '))

/-- Whether the UUID pattern matches starting at index i. -/
def uuidAt (cs : List Char) (i : Nat) : Bool :=
  uuidShape ((cs.drop i).take 36)

/-- The 36-character window starting at index i. -/
def uuidWindow (cs : List Char) (i : Nat) : String :=
  String.mk ((cs.drop i).take 36)

/-- re.search of the UUID pattern: the matched text at the least
starting index, if any (app.py lines 128-130). -/
def uuidSearch (s : String) : Option String :=
  let cs := s.toList
  match (List.range cs.length).find? (fun i => uuidAt cs i) with
  | some i => some (uuidWindow cs i)
  | none => none

/-- Python s.endswith(suffix), embedded over character lists so it
reduces in the kernel. -/
def strEndsWith (s suffix : String) : Bool :=
  suffix.toList.isSuffixOf s.toList

/-! ## Data model

A markup document is abstracted to what the pipeline inspects: the
Placemark elements in document order, each carrying the text of every
kml:coordinates element nested beneath it, in document order.  Bytes on
disk either parse as such a document, fail to parse, or are a zip-style
container of named members. -/

structure Placemark where
  coordBlobs : List String
deriving Repr

structure KmlDoc where
  placemarks : List Placemark
deriving Repr

inductive FileData where
  | doc : KmlDoc → FileData
  | malformed : FileData
  | archive : List (String × FileData) → FileData

/-- A working directory: named regular files in listing order. -/
abbrev Dir := List (String × FileData)

/-- Writing a file into a directory: overwrite the existing entry of the
same name in place, otherwise append (directories built by the pipeline
never hold duplicate names). -/
def dirWrite : Dir → String → FileData → Dir
  | [], n, d => [(n, d)]
  | e :: es, n, d => if e.1 = n then (n, d) :: es else e :: dirWrite es n d

/-- Removing a file from a directory (the source side of shutil.move). -/
def dirRemove (dir : Dir) (name : String) : Dir :=
  dir.filter (fun e => e.1 ≠ name)

/-- Looking a name up in a directory. -/
def dirLookup (dir : Dir) (name : String) : Option FileData :=
  (dir.find? (fun e => e.1 == name)).map (fun e => e.2)

/-- The two working directories owned by the workspace manager (KMZ_DIR
and KML_DIR, app.py lines 22-23). -/
structure Workspace where
  kmzDir : Dir
  kmlDir : Dir

/-- One uploaded file: its name and its decoded payload (the base64
data-URL transport of the upload widget is presentation glue and is left
outside the model; the payload here is the decoded bytes written at
app.py lines 114-116). -/
structure UploadedFile where
  filename : String
  data : FileData

/-- Error taxonomy of the per-file processing stages (spec section 7). -/
inductive PipeError where
  | unsupportedContainer
  | malformedMarkup
deriving DecidableEq, Repr

/-- Run-level rejection reasons (spec section 7): empty upload, or no
resolvable grouping key. -/
inductive RunError where
  | emptyUpload
  | noInputSelected
deriving DecidableEq, Repr

/-- One emitted data-insertion statement: identifier, grouping key,
longitude, latitude (spec sections 4.4 and 6). -/
structure SqlStmt (α : Type) where
  id : Nat
  key : String
  lon : α
  lat : α
deriving Repr

/-- One row of the coordinate table built at app.py lines 146-151:
latitude, longitude and the source filename. -/
structure CoordRow (α : Type) where
  lat : α
  lon : α
  file : String
deriving Repr

/-! ## Modelled processor functions

app.py imports extract_kml_from_kmz, delete_files_in_folder,
remove_cdata_from_kml, extract_coordinates_from_kml and merge_kml_files
from a processor module that is not part of the sources; each is
modelled from the specification. -/

/-- Modelled from the spec: processor.extract_kml_from_kmz (spec 4.2).
Opens the container, finds the member whose name ends in the markup
extension, and yields that member (its base name is used for the file
written to the markup directory).  Fails with UnsupportedContainer when
no matching member exists (or the bytes are not a container at all). -/
def extract_kml_from_kmz (fd : FileData) : Except PipeError (String × FileData) :=
  match fd with
  | FileData.archive members =>
    match members.find? (fun m => strEndsWith m.1 ".kml") with
    | some m => Except.ok m
    | none => Except.error PipeError.unsupportedContainer
  | _ => Except.error PipeError.unsupportedContainer

/-- Modelled from the spec: processor.remove_cdata_from_kml (spec 4.3).
Rewrites the markup file in place so escaped nested markup becomes
first-class elements; at this abstraction a parseable document is
returned unchanged in structure, and bytes that cannot be parsed fail
with MalformedMarkup (the file is then excluded from later stages and
the run continues, spec sections 4.3 and 7). -/
def remove_cdata_from_kml (fd : FileData) : Except PipeError KmlDoc :=
  match fd with
  | FileData.doc d => Except.ok d
  | _ => Except.error PipeError.malformedMarkup

/-- The coordinate groups of one coordinates text blob that carry at
least two comma-separated fields, paired as (field 0, field 1); groups
with fewer than two fields contribute nothing (spec 4.4; the same
splitting appears at app.py lines 146-152). -/
def tuplesOfBlob (blob : String) : List (String × String) :=
  (pySplitWs blob).filterMap (fun g =>
    match pySplitComma g with
    | p0 :: p1 :: _ => some (p0, p1)
    | _ => none)

/-- All coordinate tuples of a document in document order: Placemark
order, then coordinates-element order within a Placemark, then group
order within the text blob. -/
def docTuples (d : KmlDoc) : List (String × String) :=
  d.placemarks.flatMap (fun pm => pm.coordBlobs.flatMap tuplesOfBlob)

/-- Statement emission: one statement per tuple, identifiers assigned
from the running counter in emission order. -/
def emitTuples {α : Type} (parse : String → α) (key : String) :
    Nat → List (String × String) → List (SqlStmt α)
  | _, [] => []
  | c, t :: ts => { id := c, key := key, lon := parse t.1, lat := parse t.2 }
      :: emitTuples parse key (c + 1) ts

/-- Modelled from the spec: processor.extract_coordinates_from_kml
(spec 4.4).  Walks the sanitized document, emits one statement per
coordinate tuple with identifier equal to the current counter value,
increments the counter by one per emitted statement, and returns the
next free identifier together with the emitted statements (the textual
statements are captured from stdout at app.py lines 132-135). -/
def extract_coordinates_from_kml {α : Type} (parse : String → α) (d : KmlDoc)
    (count : Nat) (key : String) : Nat × List (SqlStmt α) :=
  (count + (docTuples d).length, emitTuples parse key count (docTuples d))

/-- Modelled from the spec: processor.merge_kml_files (spec 4.5).
Enumerates the files of the markup directory ending in the markup
extension in listing order, skips those that fail to parse, and unions
their Placemark elements under one root; the final counter argument is
bookkeeping only and does not alter content. -/
def merge_kml_files (dir : Dir) (finalCount : Nat) : KmlDoc :=
  { placemarks :=
      ((dir.filter (fun e => strEndsWith e.1 ".kml")).map (fun e => e.2)).flatMap
        (fun fd =>
          match fd with
          | FileData.doc d => d.placemarks
          | _ => []) }

/-! ## The app.py callback, embedded -/

/-- The grouping key of one file (app.py lines 128-130): the first UUID
pattern found in the filename, else the city name with spaces replaced
by underscores. -/
def fileKey (city : String) (filename : String) : String :=
  match uuidSearch filename with
  | some u => u
  | none => pyUnderscore city

/-- app.py line 97: city = custom_city.strip() if custom_city else
selected_city.  A missing widget value is None; Python truthiness of a
string is nonemptiness. -/
def cityOf (selected custom : Option String) : Option String :=
  match custom with
  | some c => if c ≠ "" then some (pyStrip c) else selected
  | none => selected

/-- The coordinate table rows read back from the cleaned document
(app.py lines 138-159): for every Placemark, for every coordinates
element beneath it, split the stripped text on whitespace, split each
group on commas, and keep (lat, lon, filename) for the groups with at
least two fields.  Element text is modelled as a string (absent text as
the empty string); Python float parsing is the abstract parse
parameter. -/
def readCoords {α : Type} (parse : String → α) (d : KmlDoc) (filename : String) :
    List (CoordRow α) :=
  d.placemarks.flatMap (fun pm =>
    pm.coordBlobs.flatMap (fun blob =>
      ((pySplitWs (pyStrip blob)).filterMap (fun g =>
        match pySplitComma g with
        | p0 :: p1 :: _ => some (p0, p1)
        | _ => none)).map (fun t =>
          { lat := parse t.2, lon := parse t.1, file := filename })))

/-- Result of processing one uploaded file inside the loop of app.py
lines 109-159: the updated workspace, the updated counter, the per-file
emitted statements (none when the file was skipped at dispatch,
container extraction or sanitization), and the coordinate-table rows
contributed. -/
structure StepResult (α : Type) where
  ws : Workspace
  count : Nat
  emitted : Option (List (SqlStmt α))
  coords : List (CoordRow α)

/-- The extension dispatch of app.py lines 110-124, data side: the name
and bytes of the markup file that ends up in the markup directory.  A
".kmz" upload goes through container extraction (some member, or none
on UnsupportedContainer); a ".kml" upload is the file itself, moved
as-is with no container inspection; any other extension is skipped
(the loop continues with the next file). -/
def dispatchData (f : UploadedFile) : Option (String × FileData) :=
  let ext := pyLower (splitextExt f.filename)
  if ext = ".kmz" then
    match extract_kml_from_kmz f.data with
    | Except.ok m => some (pyBasename m.1, m.2)
    | Except.error _ => none
  else if ext = ".kml" then some (f.filename, f.data)
  else none

/-- The extension dispatch of app.py lines 110-124, directory side,
applied after the upload is written into the archive directory
(lines 114-116): a ".kmz" upload stays there and its extracted member
is written to the markup directory; a ".kml" upload is moved (removed
from the archive directory, written to the markup directory); anything
else just stays in the archive directory. -/
def dispatchWs (ws1 : Workspace) (f : UploadedFile) : Workspace :=
  let ext := pyLower (splitextExt f.filename)
  if ext = ".kmz" then
    match extract_kml_from_kmz f.data with
    | Except.ok m => { ws1 with kmlDir := dirWrite ws1.kmlDir (pyBasename m.1) m.2 }
    | Except.error _ => ws1
  else if ext = ".kml" then
    { kmzDir := dirRemove ws1.kmzDir f.filename,
      kmlDir := dirWrite ws1.kmlDir f.filename f.data }
  else ws1

/-- The sanitized document of one upload, when it reaches and passes the
sanitize stage (app.py line 126): dispatch must yield a markup file and
remove_cdata_from_kml must succeed on it. -/
def sanitizedDoc (f : UploadedFile) : Option KmlDoc :=
  match dispatchData f with
  | none => none
  | some kf =>
    match remove_cdata_from_kml kf.2 with
    | Except.ok d => some d
    | Except.error _ => none

/-- One iteration of the file loop (app.py lines 109-159): write the
upload into the archive directory; dispatch on the lowered filename
extension; sanitize; derive the grouping key; extract coordinates
threading the counter; read the coordinate table rows.  Per-file
failures leave the counter unchanged and emit nothing (spec sections
4.2, 4.3 and 7). -/
def processOneFile {α : Type} (parse : String → α) (city : String)
    (ws : Workspace) (count : Nat) (f : UploadedFile) : StepResult α :=
  let ws1 : Workspace := { ws with kmzDir := dirWrite ws.kmzDir f.filename f.data }
  let ws2 := dispatchWs ws1 f
  match sanitizedDoc f with
  | none => { ws := ws2, count := count, emitted := none, coords := [] }
  | some d =>
    let key := fileKey city f.filename
    let r := extract_coordinates_from_kml parse d count key
    { ws := ws2, count := r.1, emitted := some r.2,
      coords := readCoords parse d f.filename }

/-- Loop state of the run: workspace, running counter, the list of
per-file statement outputs (sql_output_all) and the coordinate table
(all_coords). -/
structure LoopState (α : Type) where
  ws : Workspace
  count : Nat
  sqlOutputAll : List (List (SqlStmt α))
  allCoords : List (CoordRow α)

/-- The file loop of app.py lines 109-159 over the uploads in order. -/
def runLoop {α : Type} (parse : String → α) (city : String) :
    LoopState α → List UploadedFile → LoopState α
  | st, [] => st
  | st, f :: fs =>
    let r := processOneFile parse city st.ws st.count f
    runLoop parse city
      { ws := r.ws, count := r.count,
        sqlOutputAll := st.sqlOutputAll ++
          (match r.emitted with
           | some l => [l]
           | none => []),
        allCoords := st.allCoords ++ r.coords } fs

/-- Everything a completed run returns (app.py lines 161-212): the final
workspace, the per-file statement outputs, the coordinate table, the
final counter, the counter value handed to the merge step, the merged
document, and the names bundled into the downloadable zip. -/
structure RunSuccess (α : Type) where
  ws : Workspace
  sqlOutputAll : List (List (SqlStmt α))
  allCoords : List (CoordRow α)
  finalCount : Nat
  mergeCounterArg : Nat
  mergedDoc : KmlDoc
  zipNames : List String

/-- A run is either rejected before any file processing (carrying the
untouched workspace) or completed. -/
inductive RunResult (α : Type) where
  | rejected : RunError → Workspace → RunResult α
  | completed : RunSuccess α → RunResult α

/-- The post-validation body of the callback (app.py lines 101-169):
clear both directories, run the file loop from counter 30000, merge the
markup directory passing the final counter, write the merged document
into the markup directory, and bundle every file there whose name ends
in ".kml". -/
def completedRun {α : Type} (parse : String → α) (city : String)
    (files : List UploadedFile) : RunSuccess α :=
  let st := runLoop parse city
    { ws := { kmzDir := [], kmlDir := [] }, count := 30000,
      sqlOutputAll := [], allCoords := [] } files
  let merged := merge_kml_files st.ws.kmlDir st.count
  let kmlDirF := dirWrite st.ws.kmlDir "merged_output.kml" (FileData.doc merged)
  { ws := { kmzDir := st.ws.kmzDir, kmlDir := kmlDirF },
    sqlOutputAll := st.sqlOutputAll,
    allCoords := st.allCoords,
    finalCount := st.count,
    mergeCounterArg := st.count,
    mergedDoc := merged,
    zipNames := (kmlDirF.filter (fun e => strEndsWith e.1 ".kml")).map (fun e => e.1) }

/-- The process_files callback (app.py lines 93-212): reject an empty
upload, resolve the city and reject when none, then run the pipeline. -/
def process_files {α : Type} (parse : String → α) (files : List UploadedFile)
    (selected custom : Option String) (ws0 : Workspace) : RunResult α :=
  if files.isEmpty then RunResult.rejected RunError.emptyUpload ws0
  else
    match cityOf selected custom with
    | none => RunResult.rejected RunError.noInputSelected ws0
    | some city =>
      if city = "" then RunResult.rejected RunError.noInputSelected ws0
      else RunResult.completed (completedRun parse city files)

/-! ## Derived specifications used to state the claims -/

/-- The per-file statement outputs of a batch, recomputed file by file
with the counter threaded through, independently of any workspace
state: what sql_output_all must contain if accumulation is in upload
order. -/
def emissionsFrom {α : Type} (parse : String → α) (city : String) :
    Nat → List UploadedFile → List (List (SqlStmt α))
  | _, [] => []
  | c, f :: fs =>
    match sanitizedDoc f with
    | none => emissionsFrom parse city c fs
    | some d =>
      let r := extract_coordinates_from_kml parse d c (fileKey city f.filename)
      r.2 :: emissionsFrom parse city r.1 fs

/-- The coordinate groups of a blob that carry at least two fields,
as lists of fields: the groups the spec says must be kept. -/
def keptGroups (blob : String) : List (List String) :=
  ((pySplitWs blob).map pySplitComma).filter (fun ps => 2 ≤ ps.length)

/-- A document holding one Placemark with one coordinates blob, used to
state per-blob properties of the extractor. -/
def oneBlobDoc (blob : String) : KmlDoc :=
  { placemarks := [ { coordBlobs := [ blob ] } ] }

/-! ## Helper lemmas -/

theorem emitTuples_length {α : Type} (parse : String → α) (key : String) :
    ∀ (ts : List (String × String)) (c : Nat), (emitTuples parse key c ts).length = ts.length := by
  intro ts
  induction ts with
  | nil => intro c; rfl
  | cons t ts ih => intro c; simp [emitTuples, ih]

theorem emitTuples_map_id {α : Type} (parse : String → α) (key : String) :
    ∀ (ts : List (String × String)) (c : Nat),
      (emitTuples parse key c ts).map (fun s => s.id) = List.range' c ts.length := by
  intro ts
  induction ts with
  | nil => intro c; rfl
  | cons t ts ih =>
    intro c
    show SqlStmt.id { id := c, key := key, lon := parse t.1, lat := parse t.2 }
        :: (emitTuples parse key (c + 1) ts).map (fun s => s.id)
      = List.range' c (ts.length + 1)
    rw [ih (c + 1)]
    rfl

theorem emitTuples_key {α : Type} (parse : String → α) (key : String) :
    ∀ (ts : List (String × String)) (c : Nat) (s : SqlStmt α),
      s ∈ emitTuples parse key c ts → s.key = key := by
  intro ts
  induction ts with
  | nil => intro c s h; cases h
  | cons t ts ih =>
    intro c s h
    cases h with
    | head => rfl
    | tail _ h2 => exact ih (c + 1) s h2

theorem emitTuples_map_lonlat {α : Type} (parse : String → α) (key : String) :
    ∀ (ts : List (String × String)) (c : Nat),
      (emitTuples parse key c ts).map (fun s => (s.lon, s.lat))
        = ts.map (fun t => (parse t.1, parse t.2)) := by
  intro ts
  induction ts with
  | nil => intro c; rfl
  | cons t ts ih => intro c; simp [emitTuples, ih]

theorem filterMap_pairs_eq :
    ∀ (gs : List String),
      gs.filterMap (fun g =>
          match pySplitComma g with
          | p0 :: p1 :: _ => some (p0, p1)
          | _ => none)
        = ((gs.map pySplitComma).filter (fun ps => 2 ≤ ps.length)).map
            (fun ps => (ps.getD 0 "", ps.getD 1 "")) := by
  intro gs
  induction gs with
  | nil => rfl
  | cons g gs ih =>
    rcases hg : pySplitComma g with _ | ⟨p0, _ | ⟨p1, rest⟩⟩
    · simp [List.filterMap_cons, List.filter_cons, hg, ih]
    · simp [List.filterMap_cons, List.filter_cons, hg, ih]
    · simp [List.filterMap_cons, List.filter_cons, hg, ih, List.getD]

theorem find?_range'_some {p : Nat → Bool} :
    ∀ (n s i : Nat), (List.range' s n).find? p = some i →
      p i = true ∧ s ≤ i ∧ ∀ j, s ≤ j → j < i → p j = false := by
  intro n
  induction n with
  | zero => intro s i h; simp [List.range'] at h
  | succ n ih =>
    intro s i h
    rw [show List.range' s (n + 1) = s :: List.range' (s + 1) n from rfl] at h
    cases hp : p s with
    | true =>
      rw [List.find?_cons_of_pos _ hp] at h
      cases h
      exact ⟨hp, Nat.le_refl s, fun j h1 h2 => absurd (Nat.lt_of_le_of_lt h1 h2) (Nat.lt_irrefl s)⟩
    | false =>
      rw [List.find?_cons_of_neg _ (by simp [hp])] at h
      obtain ⟨hpi, hsi, hall⟩ := ih (s + 1) i h
      refine ⟨hpi, Nat.le_of_succ_le hsi, fun j h1 h2 => ?_⟩
      rcases Nat.eq_or_lt_of_le h1 with h1 | h1
      · exact h1 ▸ hp
      · exact hall j h1 h2

theorem find?_range'_none {p : Nat → Bool} :
    ∀ (n s : Nat), (List.range' s n).find? p = none →
      ∀ j, s ≤ j → j < s + n → p j = false := by
  intro n s h j h1 h2
  have hj : j ∈ List.range' s n := by
    rw [List.mem_range'_1]
    exact ⟨h1, h2⟩
  have := List.find?_eq_none.mp h j hj
  exact Bool.eq_false_iff.mpr this

theorem uuidAt_false_of_le (cs : List Char) (j : Nat) (hj : cs.length ≤ j) :
    uuidAt cs j = false := by
  unfold uuidAt uuidShape
  rw [List.drop_eq_nil_of_le hj]
  rfl

theorem uuidSearch_some_leftmost (s : String) (u : String)
    (h : uuidSearch s = some u) :
    ∃ i, uuidAt s.toList i = true ∧ u = uuidWindow s.toList i
      ∧ ∀ j, j < i → uuidAt s.toList j = false := by
  simp only [uuidSearch] at h
  rcases hf : (List.range s.toList.length).find? (fun i => uuidAt s.toList i) with _ | i
  · rw [hf] at h; cases h
  · rw [hf] at h
    cases h
    rw [List.range_eq_range'] at hf
    obtain ⟨hpi, -, hall⟩ := find?_range'_some _ _ _ hf
    exact ⟨i, hpi, rfl, fun j hj => hall j (Nat.zero_le j) hj⟩

theorem uuidSearch_none_nowhere (s : String)
    (h : uuidSearch s = none) :
    ∀ i, uuidAt s.toList i = false := by
  intro i
  simp only [uuidSearch] at h
  rcases hf : (List.range s.toList.length).find? (fun i => uuidAt s.toList i) with _ | j
  · rcases Nat.lt_or_ge i s.toList.length with hi | hi
    · rw [List.range_eq_range'] at hf
      exact find?_range'_none _ _ hf i (Nat.zero_le i) (by omega)
    · exact uuidAt_false_of_le _ _ hi
  · rw [hf] at h; cases h

theorem processOneFile_emitted {α : Type} (parse : String → α) (city : String)
    (ws : Workspace) (c : Nat) (f : UploadedFile) :
    (processOneFile parse city ws c f).emitted
      = (sanitizedDoc f).map
          (fun d => (extract_coordinates_from_kml parse d c (fileKey city f.filename)).2) := by
  unfold processOneFile
  cases sanitizedDoc f <;> rfl

theorem processOneFile_count {α : Type} (parse : String → α) (city : String)
    (ws : Workspace) (c : Nat) (f : UploadedFile) :
    (processOneFile parse city ws c f).count
      = (match sanitizedDoc f with
         | none => c
         | some d => c + (docTuples d).length) := by
  unfold processOneFile
  cases sanitizedDoc f <;> rfl

theorem processOneFile_coords {α : Type} (parse : String → α) (city : String)
    (ws : Workspace) (c : Nat) (f : UploadedFile) :
    (processOneFile parse city ws c f).coords
      = (match sanitizedDoc f with
         | none => []
         | some d => readCoords parse d f.filename) := by
  unfold processOneFile
  cases sanitizedDoc f <;> rfl

theorem processOneFile_ws {α : Type} (parse : String → α) (city : String)
    (ws : Workspace) (c : Nat) (f : UploadedFile) :
    (processOneFile parse city ws c f).ws
      = dispatchWs { ws with kmzDir := dirWrite ws.kmzDir f.filename f.data } f := by
  unfold processOneFile
  cases sanitizedDoc f <;> rfl

theorem runLoop_sql {α : Type} (parse : String → α) (city : String) :
    ∀ (fs : List UploadedFile) (st : LoopState α),
      (runLoop parse city st fs).sqlOutputAll
        = st.sqlOutputAll ++ emissionsFrom parse city st.count fs := by
  intro fs
  induction fs with
  | nil => intro st; simp [runLoop, emissionsFrom]
  | cons f fs ih =>
    intro st
    rw [runLoop, ih]
    simp only [processOneFile_emitted, processOneFile_count]
    cases h : sanitizedDoc f with
    | none => simp [emissionsFrom, h]
    | some d => simp [emissionsFrom, h, extract_coordinates_from_kml]

theorem runLoop_count {α : Type} (parse : String → α) (city : String) :
    ∀ (fs : List UploadedFile) (st : LoopState α),
      (runLoop parse city st fs).count
        = st.count + (emissionsFrom parse city st.count fs).flatten.length := by
  intro fs
  induction fs with
  | nil => intro st; simp [runLoop, emissionsFrom]
  | cons f fs ih =>
    intro st
    rw [runLoop, ih]
    simp only [processOneFile_count]
    cases h : sanitizedDoc f with
    | none => simp [emissionsFrom, h]
    | some d =>
      simp [emissionsFrom, h, extract_coordinates_from_kml,
        emitTuples_length, Nat.add_assoc]

theorem emissionsFrom_flatten_ids {α : Type} (parse : String → α) (city : String) :
    ∀ (fs : List UploadedFile) (c : Nat),
      (emissionsFrom parse city c fs).flatten.map (fun s => s.id)
        = List.range' c (emissionsFrom parse city c fs).flatten.length := by
  intro fs
  induction fs with
  | nil => intro c; rfl
  | cons f fs ih =>
    intro c
    cases h : sanitizedDoc f with
    | none => simp only [emissionsFrom, h]; exact ih c
    | some d =>
      simp only [emissionsFrom, h, extract_coordinates_from_kml, List.flatten_cons,
        List.map_append, List.length_append]
      rw [emitTuples_map_id, ih (c + (docTuples d).length), emitTuples_length]
      have := List.range'_append c (docTuples d).length
        (emissionsFrom parse city (c + (docTuples d).length) fs).flatten.length 1
      rw [Nat.one_mul] at this
      rw [this, Nat.add_comm]

theorem process_files_completed_inv {α : Type} {parse : String → α}
    {files : List UploadedFile} {selected custom : Option String}
    {ws0 : Workspace} {out : RunSuccess α}
    (h : process_files parse files selected custom ws0 = RunResult.completed out) :
    files ≠ [] ∧ ∃ city, cityOf selected custom = some city ∧ city ≠ ""
      ∧ out = completedRun parse city files := by
  by_cases he : files.isEmpty
  · simp [process_files, he] at h
  · refine ⟨fun hn => he (by simp [hn]), ?_⟩
    cases hc : cityOf selected custom with
    | none => simp [process_files, he, hc] at h
    | some city =>
      by_cases hcity : city = ""
      · simp [process_files, he, hc, hcity] at h
      · refine ⟨city, rfl, hcity, ?_⟩
        simp [process_files, he, hc, hcity] at h
        exact h.symm

theorem dirWrite_lookup (dir : Dir) (n : String) (d : FileData) :
    dirLookup (dirWrite dir n d) n = some d := by
  induction dir with
  | nil => simp [dirWrite, dirLookup]
  | cons e es ih =>
    by_cases he : e.1 = n
    · simp [dirWrite, he, dirLookup]
    · simp only [dirWrite, if_neg he]
      simpa [dirLookup, List.find?_cons, he] using ih

theorem dirWrite_mem (dir : Dir) (n : String) (d : FileData) :
    (n, d) ∈ dirWrite dir n d := by
  induction dir with
  | nil => simp [dirWrite]
  | cons e es ih =>
    by_cases he : e.1 = n
    · simp [dirWrite, he]
    · simp only [dirWrite, if_neg he]
      exact List.mem_cons_of_mem e ih

theorem zip_mem_iff (dir : Dir) (n : String) :
    (n ∈ (dir.filter (fun e => strEndsWith e.1 ".kml")).map (fun e => e.1))
      ↔ (strEndsWith n ".kml" = true ∧ n ∈ dir.map (fun e => e.1)) := by
  constructor
  · intro h
    rcases List.mem_map.mp h with ⟨e, hmem, rfl⟩
    rcases List.mem_filter.mp hmem with ⟨hin, hp⟩
    exact ⟨hp, List.mem_map.mpr ⟨e, hin, rfl⟩⟩
  · rintro ⟨hk, h⟩
    rcases List.mem_map.mp h with ⟨e, hmem, rfl⟩
    exact List.mem_map.mpr ⟨e, List.mem_filter.mpr ⟨hmem, hk⟩, rfl⟩

theorem merge_skips_malformed (d1 d2 : Dir) (n : String) (k : Nat) :
    merge_kml_files (d1 ++ (n, FileData.malformed) :: d2) k
      = merge_kml_files (d1 ++ d2) k := by
  unfold merge_kml_files
  cases hn : strEndsWith n ".kml" <;>
    simp [List.filter_append, List.filter_cons, hn]

/-! ## Sample inputs used by witnesses -/

/-- An empty workspace. -/
def wsEmpty : Workspace := { kmzDir := [], kmlDir := [] }

/-- A document with one Placemark holding two well-formed coordinate
groups. -/
def wDocA : KmlDoc :=
  { placemarks := [ { coordBlobs := [ "15.97,45.80,0 15.98,45.81,0" ] } ] }

/-- A plain markup upload. -/
def wFileA : UploadedFile := { filename := "a.kml", data := FileData.doc wDocA }

/-- An upload named like markup whose bytes do not parse. -/
def wMalKml : UploadedFile := { filename := "bad.kml", data := FileData.malformed }

/-- An upload with an irrelevant extension (its payload even parses,
showing dispatch ignores content). -/
def wTxt : UploadedFile := { filename := "notes.txt", data := FileData.doc wDocA }

/-- An upload whose filename embeds a UUID. -/
def wFileU : UploadedFile :=
  { filename := "route_550e8400-e29b-41d4-a716-446655440000.kml",
    data := FileData.doc wDocA }

/-! ## The claims -/

/-- Claim C1: the RunningCounter starts at 30000, is threaded through
the files in sequence, and across a completed run the issued statement
identifiers form the contiguous strictly increasing range
30000..30000+N-1 for N total emitted statements, with no reuse across
files; the final counter value is the one passed to the merge step. -/
theorem runningCounter_contiguous {α : Type} (parse : String → α)
    (files : List UploadedFile) (selected custom : Option String)
    (ws0 : Workspace) (out : RunSuccess α)
    (h : process_files parse files selected custom ws0 = RunResult.completed out) :
    out.sqlOutputAll.flatten.map (fun s => s.id)
        = List.range' 30000 out.sqlOutputAll.flatten.length
    ∧ (out.sqlOutputAll.flatten.map (fun s => s.id)).Nodup
    ∧ out.finalCount = 30000 + out.sqlOutputAll.flatten.length
    ∧ out.mergeCounterArg = out.finalCount := by
  obtain ⟨-, city, -, -, rfl⟩ := process_files_completed_inv h
  have hsql : (completedRun parse city files).sqlOutputAll
      = emissionsFrom parse city 30000 files := by
    simp [completedRun, runLoop_sql]
  have hcnt : (completedRun parse city files).finalCount
      = 30000 + (emissionsFrom parse city 30000 files).flatten.length := by
    simp [completedRun, runLoop_count]
  refine ⟨?_, ?_, ?_, ?_⟩
  · rw [hsql]; exact emissionsFrom_flatten_ids parse city files 30000
  · rw [hsql, emissionsFrom_flatten_ids parse city files 30000]
    exact List.nodup_range' _ _
  · rw [hcnt, hsql]
  · rfl

/-- Witness for C1 at a concrete one-file run with two coordinate
groups. -/
theorem runningCounter_contiguous_witness :
    process_files (fun s => s) [ wFileA ] (some "Zagreb") none wsEmpty
        = RunResult.completed (completedRun (fun s => s) "Zagreb" [ wFileA ])
    ∧ (completedRun (fun s => s) "Zagreb" [ wFileA ]).sqlOutputAll.flatten.map
          (fun s => s.id)
        = List.range' 30000
            (completedRun (fun s => s) "Zagreb" [ wFileA ]).sqlOutputAll.flatten.length :=
  ⟨rfl,
   (runningCounter_contiguous (fun s => s) [ wFileA ] (some "Zagreb") none wsEmpty
      (completedRun (fun s => s) "Zagreb" [ wFileA ]) rfl).1⟩

/-- Claim C2: for every coordinate group obtained by splitting a blob on
whitespace and then on commas, a group with at least two fields yields
exactly one tuple whose longitude is field 0 and latitude is field 1
(further fields ignored), and a group with fewer than two fields is
silently skipped: it produces no tuple, no statement, and does not
advance the counter. -/
theorem coordinate_group_parsing {α : Type} (parse : String → α)
    (key : String) (c : Nat) (blob : String) :
    tuplesOfBlob blob
        = (keptGroups blob).map (fun ps => (ps.getD 0 "", ps.getD 1 ""))
    ∧ (extract_coordinates_from_kml parse (oneBlobDoc blob) c key).2.map
          (fun s => (s.lon, s.lat))
        = (keptGroups blob).map
            (fun ps => (parse (ps.getD 0 ""), parse (ps.getD 1 "")))
    ∧ (extract_coordinates_from_kml parse (oneBlobDoc blob) c key).2.length
        = (keptGroups blob).length
    ∧ (extract_coordinates_from_kml parse (oneBlobDoc blob) c key).1
        = c + (keptGroups blob).length := by
  have hts : tuplesOfBlob blob
      = (keptGroups blob).map (fun ps => (ps.getD 0 "", ps.getD 1 "")) := by
    unfold tuplesOfBlob keptGroups
    exact filterMap_pairs_eq (pySplitWs blob)
  have hdoc : docTuples (oneBlobDoc blob) = tuplesOfBlob blob := by
    simp [docTuples, oneBlobDoc]
  refine ⟨hts, ?_, ?_, ?_⟩
  · show (emitTuples parse key c (docTuples (oneBlobDoc blob))).map
        (fun s => (s.lon, s.lat)) = _
    rw [emitTuples_map_lonlat, hdoc, hts, List.map_map]
    rfl
  · show (emitTuples parse key c (docTuples (oneBlobDoc blob))).length = _
    rw [emitTuples_length, hdoc, hts, List.length_map]
  · show c + (docTuples (oneBlobDoc blob)).length = _
    rw [hdoc, hts, List.length_map]

/-- Claim C3: the grouping key attached to a file's emitted statements
is the first (leftmost) UUID-pattern substring of the filename when one
exists, and otherwise the caller-supplied city name with spaces replaced
by underscores. -/
theorem grouping_key_from_uuid_or_city {α : Type} (parse : String → α)
    (city : String) (ws : Workspace) (c : Nat) (f : UploadedFile) :
    (∀ stmts, (processOneFile parse city ws c f).emitted = some stmts →
        ∀ s, s ∈ stmts → s.key = fileKey city f.filename)
    ∧ (∀ u, uuidSearch f.filename = some u →
        fileKey city f.filename = u
        ∧ ∃ i, uuidAt f.filename.toList i = true ∧ u = uuidWindow f.filename.toList i
            ∧ ∀ j, j < i → uuidAt f.filename.toList j = false)
    ∧ (uuidSearch f.filename = none →
        (∀ i, uuidAt f.filename.toList i = false)
        ∧ fileKey city f.filename = pyUnderscore city) := by
  refine ⟨?_, ?_, ?_⟩
  · intro stmts hst s hs
    rw [processOneFile_emitted] at hst
    cases hd : sanitizedDoc f with
    | none => rw [hd] at hst; cases hst
    | some d =>
      rw [hd] at hst
      cases hst
      exact emitTuples_key parse (fileKey city f.filename) (docTuples d) c s hs
  · intro u hu
    refine ⟨by rw [fileKey, hu], uuidSearch_some_leftmost f.filename u hu⟩
  · intro hn
    exact ⟨uuidSearch_none_nowhere f.filename hn, by rw [fileKey, hn]⟩

/-- Witness for C3: a filename without a UUID pattern falls back to the
underscored city name. -/
theorem grouping_key_from_uuid_or_city_witness :
    uuidSearch "a.kml" = none
    ∧ fileKey "New York" "a.kml" = pyUnderscore "New York"
    ∧ pyUnderscore "New York" = "New_York" :=
  ⟨rfl,
   ((grouping_key_from_uuid_or_city (fun s => s) "New York" wsEmpty 0 wFileA).2.2
      rfl).2,
   rfl⟩

/-- Claim C4: a file whose document cannot be parsed fails with
MalformedMarkup, contributes no statements, no counter advance and no
table rows, is skipped by the merge step, and the run always completes
for the remaining files once pre-run validation passes — per-file
failures never abort the batch. -/
theorem malformed_file_isolated {α : Type} (parse : String → α)
    (city : String) (ws : Workspace) (c : Nat) (f : UploadedFile)
    (hext : pyLower (splitextExt f.filename) = ".kml")
    (hmal : f.data = FileData.malformed) :
    (remove_cdata_from_kml f.data = Except.error PipeError.malformedMarkup
      ∧ (processOneFile parse city ws c f).emitted = none
      ∧ (processOneFile parse city ws c f).count = c
      ∧ (processOneFile parse city ws c f).coords = [])
    ∧ (∀ (d1 d2 : Dir) (n : String) (k : Nat),
        merge_kml_files (d1 ++ (n, FileData.malformed) :: d2) k
          = merge_kml_files (d1 ++ d2) k)
    ∧ (∀ (files : List UploadedFile) (selected custom : Option String)
          (ws0 : Workspace) (city2 : String),
        files ≠ [] → cityOf selected custom = some city2 → city2 ≠ "" →
        process_files parse files selected custom ws0
          = RunResult.completed (completedRun parse city2 files)) := by
  have hsan : sanitizedDoc f = none := by
    simp [sanitizedDoc, dispatchData, hext, hmal, remove_cdata_from_kml]
  refine ⟨⟨by rw [hmal]; rfl, ?_, ?_, ?_⟩, merge_skips_malformed, ?_⟩
  · rw [processOneFile_emitted, hsan]; rfl
  · rw [processOneFile_count, hsan]
  · rw [processOneFile_coords, hsan]
  · intro files selected custom ws0 city2 hne hcity hc2
    cases files with
    | nil => exact absurd rfl hne
    | cons g gs => simp [process_files, hcity, hc2]

/-- Witness for C4 at a concrete unparseable markup upload. -/
theorem malformed_file_isolated_witness :
    (processOneFile (fun s => s) "Zagreb" wsEmpty 30000 wMalKml).emitted = none
    ∧ (processOneFile (fun s => s) "Zagreb" wsEmpty 30000 wMalKml).count = 30000 :=
  ⟨(malformed_file_isolated (fun s => s) "Zagreb" wsEmpty 30000 wMalKml rfl
      rfl).1.2.1,
   (malformed_file_isolated (fun s => s) "Zagreb" wsEmpty 30000 wMalKml rfl
      rfl).1.2.2.1⟩

/-- Claim C5: a run with zero uploaded files is rejected with
EmptyUpload before any directory clear or file write; both working
directories are returned exactly as they were. -/
theorem empty_upload_rejected {α : Type} (parse : String → α)
    (selected custom : Option String) (ws0 : Workspace) :
    process_files parse [] selected custom ws0
      = RunResult.rejected RunError.emptyUpload ws0 := rfl

/-- Claim C6: when neither a dropdown city nor a custom city name is
given, a run with files is rejected with NoInputSelected before any
file I/O; the workspace is returned untouched. -/
theorem no_city_rejected {α : Type} (parse : String → α)
    (files : List UploadedFile) (custom : Option String) (ws0 : Workspace)
    (hne : files ≠ []) (hcust : custom = none ∨ custom = some "") :
    process_files parse files none custom ws0
      = RunResult.rejected RunError.noInputSelected ws0 := by
  cases files with
  | nil => exact absurd rfl hne
  | cons g gs =>
    rcases hcust with rfl | rfl <;> simp [process_files, cityOf]

/-- Witness for C6 at a concrete one-file upload with no city given. -/
theorem no_city_rejected_witness :
    process_files (fun s => s) [ wFileA ] none none wsEmpty
      = RunResult.rejected RunError.noInputSelected wsEmpty :=
  no_city_rejected (fun s => s) [ wFileA ] none wsEmpty (by simp) (Or.inl rfl)

/-- Claim C7: dispatch is by filename extension alone: a ".kmz" upload
goes through container extraction into the markup directory, a ".kml"
upload is moved there directly whatever its bytes are (no container
inspection, no content sniffing), and any other extension is skipped
without error — the markup directory, the counter, the statements, the
table and hence the merge input are untouched by it. -/
theorem extension_dispatch {α : Type} (parse : String → α) (city : String)
    (ws : Workspace) (c : Nat) (f : UploadedFile) :
    (pyLower (splitextExt f.filename) ≠ ".kmz" →
      pyLower (splitextExt f.filename) ≠ ".kml" →
        (processOneFile parse city ws c f).ws.kmlDir = ws.kmlDir
        ∧ (processOneFile parse city ws c f).ws.kmzDir
            = dirWrite ws.kmzDir f.filename f.data
        ∧ (processOneFile parse city ws c f).emitted = none
        ∧ (processOneFile parse city ws c f).count = c
        ∧ (processOneFile parse city ws c f).coords = []
        ∧ ∀ k, merge_kml_files (processOneFile parse city ws c f).ws.kmlDir k
            = merge_kml_files ws.kmlDir k)
    ∧ (pyLower (splitextExt f.filename) = ".kml" →
        (processOneFile parse city ws c f).ws.kmlDir
            = dirWrite ws.kmlDir f.filename f.data
        ∧ (processOneFile parse city ws c f).ws.kmzDir
            = dirRemove (dirWrite ws.kmzDir f.filename f.data) f.filename)
    ∧ (pyLower (splitextExt f.filename) = ".kmz" →
        ∀ mn md, extract_kml_from_kmz f.data = Except.ok (mn, md) →
          (processOneFile parse city ws c f).ws.kmlDir
              = dirWrite ws.kmlDir (pyBasename mn) md
          ∧ (processOneFile parse city ws c f).ws.kmzDir
              = dirWrite ws.kmzDir f.filename f.data) := by
  refine ⟨?_, ?_, ?_⟩
  · intro hk hml
    have hsan : sanitizedDoc f = none := by
      simp [sanitizedDoc, dispatchData, hk, hml]
    have hws : (processOneFile parse city ws c f).ws
        = { ws with kmzDir := dirWrite ws.kmzDir f.filename f.data } := by
      rw [processOneFile_ws]
      simp [dispatchWs, hk, hml]
    refine ⟨by rw [hws], by rw [hws], ?_, ?_, ?_, fun k => by rw [hws]⟩
    · rw [processOneFile_emitted, hsan]; rfl
    · rw [processOneFile_count, hsan]
    · rw [processOneFile_coords, hsan]
  · intro hml
    have hws : (processOneFile parse city ws c f).ws
        = { kmzDir := dirRemove (dirWrite ws.kmzDir f.filename f.data) f.filename,
            kmlDir := dirWrite ws.kmlDir f.filename f.data } := by
      rw [processOneFile_ws]
      simp [dispatchWs, hml]
    exact ⟨by rw [hws], by rw [hws]⟩
  · intro hkz mn md hok
    have hws : (processOneFile parse city ws c f).ws
        = { kmzDir := dirWrite ws.kmzDir f.filename f.data,
            kmlDir := dirWrite ws.kmlDir (pyBasename mn) md } := by
      rw [processOneFile_ws]
      simp [dispatchWs, hkz, hok]
    exact ⟨by rw [hws], by rw [hws]⟩

/-- Witness for C7: an upload with a foreign extension (whose payload
would even parse as markup) is skipped and leaves the markup directory
untouched. -/
theorem extension_dispatch_witness :
    (processOneFile (fun s => s) "Zagreb" wsEmpty 30000 wTxt).emitted = none
    ∧ (processOneFile (fun s => s) "Zagreb" wsEmpty 30000 wTxt).ws.kmlDir
        = wsEmpty.kmlDir :=
  ⟨((extension_dispatch (fun s => s) "Zagreb" wsEmpty 30000 wTxt).1 (by decide)
      (by decide)).2.2.1,
   ((extension_dispatch (fun s => s) "Zagreb" wsEmpty 30000 wTxt).1 (by decide)
      (by decide)).1⟩

/-- Claim C8: the accumulated statement output of a completed run is the
list of per-file statement outputs in upload order (the text blob being
their concatenation), each per-file output produced by the coordinate
extractor in emission order with the counter threaded through. -/
theorem statements_in_upload_order {α : Type} (parse : String → α)
    (files : List UploadedFile) (selected custom : Option String)
    (ws0 : Workspace) (out : RunSuccess α) (city : String)
    (h : process_files parse files selected custom ws0 = RunResult.completed out)
    (hcity : cityOf selected custom = some city) :
    out.sqlOutputAll = emissionsFrom parse city 30000 files
    ∧ out.sqlOutputAll.flatten
        = (emissionsFrom parse city 30000 files).flatten := by
  obtain ⟨-, city2, hc2, -, rfl⟩ := process_files_completed_inv h
  rw [hcity] at hc2
  cases hc2
  have hsql : (completedRun parse city files).sqlOutputAll
      = emissionsFrom parse city 30000 files := by
    simp [completedRun, runLoop_sql]
  exact ⟨hsql, by rw [hsql]⟩

/-- Witness for C8 at a concrete two-file run (the second file is
unparseable and contributes no chunk). -/
theorem statements_in_upload_order_witness :
    process_files (fun s => s) [ wFileA, wMalKml ] (some "Zagreb") none wsEmpty
        = RunResult.completed (completedRun (fun s => s) "Zagreb" [ wFileA, wMalKml ])
    ∧ (completedRun (fun s => s) "Zagreb" [ wFileA, wMalKml ]).sqlOutputAll
        = emissionsFrom (fun s => s) "Zagreb" 30000 [ wFileA, wMalKml ] :=
  ⟨rfl,
   (statements_in_upload_order (fun s => s) [ wFileA, wMalKml ] (some "Zagreb")
      none wsEmpty (completedRun (fun s => s) "Zagreb" [ wFileA, wMalKml ])
      "Zagreb" rfl rfl).1⟩

/-- Claim C9: the downloadable bundle of a completed run holds exactly
the names of the working markup directory's files with the markup
extension at bundle time, and the merged output document was written
into that directory (hence bundled) before bundling. -/
theorem bundle_contents {α : Type} (parse : String → α)
    (files : List UploadedFile) (selected custom : Option String)
    (ws0 : Workspace) (out : RunSuccess α)
    (h : process_files parse files selected custom ws0 = RunResult.completed out) :
    (∀ n, n ∈ out.zipNames
        ↔ (strEndsWith n ".kml" = true ∧ n ∈ out.ws.kmlDir.map (fun e => e.1)))
    ∧ "merged_output.kml" ∈ out.zipNames
    ∧ dirLookup out.ws.kmlDir "merged_output.kml"
        = some (FileData.doc out.mergedDoc) := by
  obtain ⟨-, city, -, -, rfl⟩ := process_files_completed_inv h
  have hzip : ∀ n, n ∈ (completedRun parse city files).zipNames
      ↔ (strEndsWith n ".kml" = true
          ∧ n ∈ (completedRun parse city files).ws.kmlDir.map (fun e => e.1)) := by
    intro n
    exact zip_mem_iff _ n
  refine ⟨hzip, ?_, ?_⟩
  · rw [hzip]
    refine ⟨by decide, ?_⟩
    show "merged_output.kml"
      ∈ (dirWrite (runLoop parse city
            { ws := { kmzDir := [], kmlDir := [] }, count := 30000,
              sqlOutputAll := [], allCoords := [] } files).ws.kmlDir
          "merged_output.kml" (FileData.doc _)).map (fun e => e.1)
    exact List.mem_map.mpr ⟨_, dirWrite_mem _ _ _, rfl⟩
  · exact dirWrite_lookup _ _ _

/-- Witness for C9 at a concrete one-file run. -/
theorem bundle_contents_witness :
    process_files (fun s => s) [ wFileA ] (some "Split") none wsEmpty
        = RunResult.completed (completedRun (fun s => s) "Split" [ wFileA ])
    ∧ "merged_output.kml" ∈ (completedRun (fun s => s) "Split" [ wFileA ]).zipNames :=
  ⟨rfl,
   (bundle_contents (fun s => s) [ wFileA ] (some "Split") none wsEmpty
      (completedRun (fun s => s) "Split" [ wFileA ]) rfl).2.1⟩

/-- Claim C10: a nonempty custom city name takes precedence over the
dropdown selection — the run behaves exactly as if only the stripped
custom city had been supplied — and a whitespace-only custom city
therefore rejects the whole run as having no city even when a dropdown
city was selected. -/
theorem custom_city_precedence {α : Type} (parse : String → α)
    (files : List UploadedFile) (selected : Option String) (c : String)
    (ws0 : Workspace) (hc : c ≠ "") (hne : files ≠ []) :
    process_files parse files selected (some c) ws0
        = process_files parse files (some (pyStrip c)) none ws0
    ∧ (pyStrip c = "" →
        process_files parse files selected (some c) ws0
          = RunResult.rejected RunError.noInputSelected ws0) := by
  have hcity : cityOf selected (some c) = some (pyStrip c) := by
    simp [cityOf, hc]
  constructor
  · unfold process_files
    rw [hcity]
    rfl
  · intro hs
    cases files with
    | nil => exact absurd rfl hne
    | cons g gs =>
      unfold process_files
      rw [hcity, hs]
      rfl

/-- Witness for C10: a whitespace-only custom city rejects the run even
though a dropdown city was chosen. -/
theorem custom_city_precedence_witness :
    process_files (fun s => s) [ wFileA ] (some "Split") (some "   ") wsEmpty
      = RunResult.rejected RunError.noInputSelected wsEmpty :=
  (custom_city_precedence (fun s => s) [ wFileA ] (some "Split") "   " wsEmpty
    (by decide) (by simp)).2 rfl
